import Mathlib

/-! Verification of the exchange_calendars sources (errors.py,
us_futures_calendar.py, exchange_calendar_xtai.py) over a shallow embedding:
a calendar date is its day number (days since 1970-01-01, an `Int`) and an
instant is a count of minutes since the epoch.  The civil (year, month, day)
view of a day number is computed by the standard Gregorian conversion
formulas, and `weekday` matches Python's `datetime.weekday` (Monday = 0). -/

namespace ExchangeCalendars

/-- Weekday constant as in exchange_calendar.py (Monday = 0). -/
def MONDAY : Int := 0

/-- Weekday constant as in exchange_calendar.py (Tuesday = 1). -/
def TUESDAY : Int := 1

/-- Weekday constant as in exchange_calendar.py (Thursday = 3). -/
def THURSDAY : Int := 3

/-- Weekday constant as in exchange_calendar.py (Friday = 4). -/
def FRIDAY : Int := 4

/-- Weekday constant as in exchange_calendar.py (Saturday = 5). -/
def SATURDAY : Int := 5

/-- Weekday constant as in exchange_calendar.py (Sunday = 6). -/
def SUNDAY : Int := 6

/-- Day-of-week of a day number: 1970-01-01 (day 0) was a Thursday, so this
matches Python's `datetime.weekday()` convention Monday = 0 .. Sunday = 6. -/
def weekday (d : Int) : Int := (d + 3) % 7

/-- Day number (days since 1970-01-01) of a Gregorian civil date, by the
standard era-based conversion (truncating division, as `Int` division is). -/
def daysFromCivil (y m d : Int) : Int :=
  let y2 := y - (if m ≤ 2 then 1 else 0)
  let era := (if 0 ≤ y2 then y2 else y2 - 399) / 400
  let yoe := y2 - era * 400
  let doy := (153 * (m + (if 2 < m then -3 else 9)) + 2) / 5 + d - 1
  let doe := yoe * 365 + yoe / 4 - yoe / 100 + doy
  era * 146097 + doe - 719468

/-- Gregorian civil date (year, month, day) of a day number, the inverse of
`daysFromCivil` on valid dates. -/
def civilFromDays (z0 : Int) : Int × Int × Int :=
  let z := z0 + 719468
  let era := (if 0 ≤ z then z else z - 146096) / 146097
  let doe := z - era * 146097
  let yoe := (doe - doe / 1460 + doe / 36524 - doe / 146096) / 365
  let y := yoe + era * 400
  let doy := doe - (365 * yoe + yoe / 4 - yoe / 100)
  let mp := (5 * doy + 2) / 153
  let d := doy - (153 * mp + 2) / 5 + 1
  let m := mp + (if mp < 10 then 3 else -9)
  (y + (if m ≤ 2 then 1 else 0), m, d)

/-- The `.year` attribute of a date held as a day number. -/
def year (d : Int) : Int := (civilFromDays d).1

/-- The `.month` attribute of a date held as a day number. -/
def month (d : Int) : Int := (civilFromDays d).2.1

/-- The `.day` attribute of a date held as a day number. -/
def dayOfMonth (d : Int) : Int := (civilFromDays d).2.2

/-- Convenience constructor: the day number of the civil date y-m-d. -/
def mkDate (y m d : Int) : Int := daysFromCivil y m d

/-! exchange_calendar_xtai.py -/

/-- check_after_2013: `dt.year > 2013`. -/
def check_after_2013 (dt : Int) : Bool := decide (year dt > 2013)

/-- check_between_2013_2024: `2024 > dt.year > 2013`. -/
def check_between_2013_2024 (dt : Int) : Bool :=
  decide (2024 > year dt ∧ year dt > 2013)

/-- Embeds pandas.tseries.holiday.next_monday (imported by the source): a date
on Saturday or Sunday moves to the following Monday, else is unchanged. -/
def next_monday (dt : Int) : Int :=
  if weekday dt = SATURDAY then dt + 2
  else if weekday dt = SUNDAY then dt + 1
  else dt

/-- Embeds pandas.tseries.holiday.previous_friday (imported by the source): a
date on Saturday or Sunday moves to the preceding Friday, else is unchanged. -/
def previous_friday (dt : Int) : Int :=
  if weekday dt = SATURDAY then dt - 1
  else if weekday dt = SUNDAY then dt - 2
  else dt

/-- Embeds pandas.tseries.holiday.nearest_workday (imported by the source):
Saturday moves back one day to Friday, Sunday forward one day to Monday. -/
def nearest_workday (dt : Int) : Int :=
  if weekday dt = SATURDAY then dt - 1
  else if weekday dt = SUNDAY then dt + 1
  else dt

/-- before_chinese_new_year_offset: map previous_friday over the dates. -/
def before_chinese_new_year_offset (holidays : List Int) : List Int :=
  holidays.map previous_friday

/-- chinese_new_year_offset: map next_monday over the dates. -/
def chinese_new_year_offset (holidays : List Int) : List Int :=
  holidays.map next_monday

/-- evalute_tomb_sweeping_workday_extra: for each input date with year > 2012,
month 4, day 4, append April 5 of that year when April 4 is a Thursday, else
April 3 of that year; other dates contribute nothing. -/
def evalute_tomb_sweeping_workday_extra (dt : List Int) : List Int :=
  match dt with
  | [] => []
  | d :: rest =>
    if year d > 2012 ∧ month d = 4 ∧ dayOfMonth d = 4 then
      (if weekday (mkDate (year d) 4 4) = THURSDAY then mkDate (year d) 4 5
       else mkDate (year d) 4 3) :: evalute_tomb_sweeping_workday_extra rest
    else evalute_tomb_sweeping_workday_extra rest

/-- nearest_workday_2013_thr_2023: nearest_workday when 2024 > year > 2013. -/
def nearest_workday_2013_thr_2023 (dt : Int) : Int :=
  if 2024 > year dt ∧ year dt > 2013 then nearest_workday dt else dt

/-- manual_nearest_workday_2013_thr_2023: map of the previous function. -/
def manual_nearest_workday_2013_thr_2023 (holidays : List Int) : List Int :=
  holidays.map nearest_workday_2013_thr_2023

/-- manual_extra_days_07_thr_2023: day-after each Thursday holiday and
day-before each Tuesday holiday, for years 2007..2023. -/
def manual_extra_days_07_thr_2023 (holidays : List Int) : List Int :=
  let friday_extras :=
    (holidays.filter
      (fun d => decide (weekday d = THURSDAY ∧ 2024 > year d ∧ year d > 2006))).map
      (fun d => d + 1)
  let monday_extras :=
    (holidays.filter
      (fun d => decide (weekday d = TUESDAY ∧ 2024 > year d ∧ year d > 2006))).map
      (fun d => d - 1)
  friday_extras ++ monday_extras

/-- weekend_makeup: identity before 2014; afterwards Sunday moves forward one
day and Saturday back one day. -/
def weekend_makeup (dt : Int) : Int :=
  if year dt < 2014 then dt
  else if weekday dt = SUNDAY then dt + 1
  else if weekday dt = SATURDAY then dt - 1
  else dt

/-- holidays_weekend_makeup: map weekend_makeup over the dates. -/
def holidays_weekend_makeup (holidays : List Int) : List Int :=
  holidays.map weekend_makeup

/-- bridge_mon: step back one day; that date is an extra holiday when it is a
Monday and the year-range checker accepts it, otherwise None; the source
defaults checker to check_after_2013, passed explicitly here. -/
def bridge_mon (dt : Int) (checker : Int → Bool) :
    Option Int :=
  let dt := dt - 1
  if weekday dt = MONDAY ∧ checker dt = true then some dt else none

/-- bridge_fri: step forward one day; that date is an extra holiday when it is
a Friday and the year-range checker accepts it, otherwise None; the source
defaults checker to check_after_2013, passed explicitly here. -/
def bridge_fri (dt : Int) (checker : Int → Bool) :
    Option Int :=
  let dt := dt + 1
  if weekday dt = FRIDAY ∧ checker dt = true then some dt else none

/-- chinese_new_year, as a function of the external
chinese_lunar_new_year_dates (lunisolar_holidays.py, configuration data). -/
def chinese_new_year (anchors : List Int) : List Int :=
  chinese_new_year_offset anchors

/-- chinese_new_years_eve: previous-Friday adjustment of the main day less
one day. -/
def chinese_new_years_eve (anchors : List Int) : List Int :=
  before_chinese_new_year_offset ((chinese_new_year anchors).map (fun d => d - 1))

/-- chinese_new_years_eve_2: previous-Friday adjustment of the eve less one
day. -/
def chinese_new_years_eve_2 (anchors : List Int) : List Int :=
  before_chinese_new_year_offset
    ((chinese_new_years_eve anchors).map (fun d => d - 1))

/-- chinese_new_year_2: next-Monday adjustment of the main day plus one day. -/
def chinese_new_year_2 (anchors : List Int) : List Int :=
  chinese_new_year_offset ((chinese_new_year anchors).map (fun d => d + 1))

/-- chinese_new_year_3: next-Monday adjustment of day two plus one day. -/
def chinese_new_year_3 (anchors : List Int) : List Int :=
  chinese_new_year_offset ((chinese_new_year_2 anchors).map (fun d => d + 1))

/-- tomb_sweeping_day, as a function of the external qingming_festival_dates. -/
def tomb_sweeping_day (qingming : List Int) : List Int :=
  manual_nearest_workday_2013_thr_2023 qingming

/-- tomb_sweeping_day_workday_extras. -/
def tomb_sweeping_day_workday_extras (qingming : List Int) : List Int :=
  evalute_tomb_sweeping_workday_extra qingming

/-- tomb_sweeping_day_weekend_extras. -/
def tomb_sweeping_day_weekend_extras (qingming : List Int) : List Int :=
  holidays_weekend_makeup qingming

/-- dragon_boat_festival, as a function of the external
dragon_boat_festival_dates. -/
def dragon_boat_festival (dates : List Int) : List Int :=
  manual_nearest_workday_2013_thr_2023 dates

/-- dragon_boat_festival_workday_extras. -/
def dragon_boat_festival_workday_extras (dates : List Int) : List Int :=
  manual_extra_days_07_thr_2023 (dragon_boat_festival dates)

/-- dragon_boat_festival_weekend_extras. -/
def dragon_boat_festival_weekend_extras (dates : List Int) : List Int :=
  holidays_weekend_makeup dates

/-- mid_autumn_festival, as a function of the external
mid_autumn_festival_dates. -/
def mid_autumn_festival (dates : List Int) : List Int :=
  manual_nearest_workday_2013_thr_2023 dates

/-- mid_autumn_festival_workday_extras. -/
def mid_autumn_festival_workday_extras (dates : List Int) : List Int :=
  manual_extra_days_07_thr_2023 (mid_autumn_festival dates)

/-- mid_autumn_festival_weekend_extras. -/
def mid_autumn_festival_weekend_extras (dates : List Int) : List Int :=
  holidays_weekend_makeup dates

/-- chinese_new_year_extras: the literal ad-hoc date list of the source. -/
def chinese_new_year_extras : List Int :=
  [mkDate 2002 2 7, mkDate 2002 2 15, mkDate 2003 1 29, mkDate 2004 1 19,
   mkDate 2005 2 4, mkDate 2006 2 2, mkDate 2007 2 22, mkDate 2007 2 23,
   mkDate 2008 2 4, mkDate 2009 1 29, mkDate 2009 1 30, mkDate 2010 2 18,
   mkDate 2010 2 19, mkDate 2011 1 31, mkDate 2012 1 26, mkDate 2012 1 27,
   mkDate 2013 2 14, mkDate 2013 2 15, mkDate 2014 1 28, mkDate 2015 2 16,
   mkDate 2016 2 11, mkDate 2016 2 12, mkDate 2017 1 25, mkDate 2018 2 13,
   mkDate 2019 1 31, mkDate 2019 2 8, mkDate 2020 1 21, mkDate 2020 1 22,
   mkDate 2021 2 8, mkDate 2021 2 9, mkDate 2022 1 27, mkDate 2023 1 26,
   mkDate 2023 1 27]

/-- extra_holidays: the literal abnormal-observance ad-hoc date list. -/
def extra_holidays : List Int :=
  [mkDate 2021 4 2, mkDate 2020 4 2, mkDate 2016 4 5, mkDate 2012 12 31,
   mkDate 2012 2 27, mkDate 2009 1 2, mkDate 2006 10 9, mkDate 2005 9 1,
   mkDate 2018 4 6, mkDate 2007 4 6]

/-- typhoons: the literal typhoon-closure ad-hoc date list. -/
def typhoons : List Int :=
  [mkDate 2024 10 3, mkDate 2024 10 2, mkDate 2024 7 25, mkDate 2024 7 24,
   mkDate 2019 9 30, mkDate 2019 8 9, mkDate 2016 9 28, mkDate 2016 9 27,
   mkDate 2016 7 8, mkDate 2015 9 29, mkDate 2015 7 10, mkDate 2014 7 23,
   mkDate 2013 8 21, mkDate 2012 8 2, mkDate 2009 8 7, mkDate 2008 9 29,
   mkDate 2008 7 28, mkDate 2007 9 18, mkDate 2005 8 5, mkDate 2005 7 18,
   mkDate 2004 10 25, mkDate 2004 8 25, mkDate 2004 8 24, mkDate 2002 9 6]

/-- XTAIExchangeCalendar.adhoc_holidays: chained concatenation of the ad-hoc
components, as functions of the four external lunisolar anchor-date lists
(lunisolar_holidays.py, configuration data). -/
def adhoc_holidays (cny qingming dragonBoat midAutumn : List Int) : List Int :=
  extra_holidays ++ typhoons ++
  chinese_new_years_eve cny ++ chinese_new_years_eve_2 cny ++
  chinese_new_year cny ++ chinese_new_year_2 cny ++ chinese_new_year_3 cny ++
  chinese_new_year_extras ++
  tomb_sweeping_day qingming ++ tomb_sweeping_day_workday_extras qingming ++
  tomb_sweeping_day_weekend_extras qingming ++
  dragon_boat_festival dragonBoat ++
  dragon_boat_festival_workday_extras dragonBoat ++
  dragon_boat_festival_weekend_extras dragonBoat ++
  mid_autumn_festival midAutumn ++
  mid_autumn_festival_workday_extras midAutumn ++
  mid_autumn_festival_weekend_extras midAutumn

/-- bridge_mon_2014_thr_2023: partial application of bridge_mon with the
2014..2023 checker. -/
def bridge_mon_2014_thr_2023 (dt : Int) : Option Int :=
  bridge_mon dt check_between_2013_2024

/-- bridge_fri_2014_thr_2023: partial application of bridge_fri with the
2014..2023 checker. -/
def bridge_fri_2014_thr_2023 (dt : Int) : Option Int :=
  bridge_fri dt check_between_2013_2024

/-- Modelled from the spec: a recurring Holiday Rule (§3, §4.2) as built by
pandas.tseries.holiday.Holiday (pandas is not under src): a month/day anchor,
an optional start year, and an observance pipeline that may drop the date. -/
structure HolidayRule where
  hMonth : Int
  hDay : Int
  start_year : Option Int
  observance : Int → Option Int

/-- The years y1..y2 inclusive. -/
def yearsInRange (y1 y2 : Int) : List Int :=
  (List.range (y2 + 1 - y1).toNat).map (fun (i : Nat) => y1 + (i : Int))

/-- Modelled from the spec: evaluation of a recurring Holiday Rule over a year
range (§4.2): enumerate the anchors within the rule's validity bound and apply
the observance pipeline to each, collecting every produced date. -/
def evalRule (r : HolidayRule) (y1 y2 : Int) : List Int :=
  ((yearsInRange y1 y2).filter
    (fun y => match r.start_year with
      | none => true
      | some s => decide (s ≤ y))).filterMap
    (fun y => r.observance (mkDate y r.hMonth r.hDay))

/-- NewYearsDay: Jan 1 (new_years_day of common_holidays, not under src, is
the standard Jan 1 rule) with the weekend_makeup observance. -/
def NewYearsDay : HolidayRule := ⟨1, 1, none, fun d => some (weekend_makeup d)⟩

/-- NewYearsDayExtraMon: Jan 1 with bridge_mon (default check_after_2013). -/
def NewYearsDayExtraMon : HolidayRule :=
  ⟨1, 1, none, fun d => bridge_mon d check_after_2013⟩

/-- NewYearsDayExtraFri: Jan 1 with bridge_fri (default check_after_2013). -/
def NewYearsDayExtraFri : HolidayRule :=
  ⟨1, 1, none, fun d => bridge_fri d check_after_2013⟩

/-- PeaceMemorialDay: Feb 28 with weekend_makeup. -/
def PeaceMemorialDay : HolidayRule :=
  ⟨2, 28, none, fun d => some (weekend_makeup d)⟩

/-- PeaceMemorialDayExtraMon. -/
def PeaceMemorialDayExtraMon : HolidayRule :=
  ⟨2, 28, none, bridge_mon_2014_thr_2023⟩

/-- PeaceMemorialDayExtraFri. -/
def PeaceMemorialDayExtraFri : HolidayRule :=
  ⟨2, 28, none, bridge_fri_2014_thr_2023⟩

/-- WomenAndChildrensDay: Apr 4 from 2011 with weekend_makeup. -/
def WomenAndChildrensDay : HolidayRule :=
  ⟨4, 4, some 2011, fun d => some (weekend_makeup d)⟩

/-- WomenAndChildrensDayExtraMon. -/
def WomenAndChildrensDayExtraMon : HolidayRule :=
  ⟨4, 4, some 2011, bridge_mon_2014_thr_2023⟩

/-- WomenAndChildrensDayExtraFri. -/
def WomenAndChildrensDayExtraFri : HolidayRule :=
  ⟨4, 4, some 2011, bridge_fri_2014_thr_2023⟩

/-- LabourDay: May 1 (european_labour_day of common_holidays, not under src,
is the standard May 1 rule) with nearest_workday_2013_thr_2023. -/
def LabourDay : HolidayRule :=
  ⟨5, 1, none, fun d => some (nearest_workday_2013_thr_2023 d)⟩

/-- NationalDay: Oct 10 with weekend_makeup. -/
def NationalDay : HolidayRule :=
  ⟨10, 10, none, fun d => some (weekend_makeup d)⟩

/-- NationalDayExtraMon. -/
def NationalDayExtraMon : HolidayRule :=
  ⟨10, 10, none, bridge_mon_2014_thr_2023⟩

/-- NationalDayExtraFri. -/
def NationalDayExtraFri : HolidayRule :=
  ⟨10, 10, none, bridge_fri_2014_thr_2023⟩

/-- XTAIExchangeCalendar.regular_holidays: the rule list, in source order. -/
def xtaiRegularHolidays : List HolidayRule :=
  [NewYearsDay, NewYearsDayExtraMon, NewYearsDayExtraFri,
   PeaceMemorialDay, PeaceMemorialDayExtraMon, PeaceMemorialDayExtraFri,
   WomenAndChildrensDay, WomenAndChildrensDayExtraMon,
   WomenAndChildrensDayExtraFri, LabourDay,
   NationalDay, NationalDayExtraMon, NationalDayExtraFri]

/-- Modelled from the spec: the calendar's unioned holiday set (§4.2) is the
union over all configured rules of their evaluations. -/
def xtaiRegularHolidaySet (y1 y2 : Int) : List Int :=
  (xtaiRegularHolidays.map (fun r => evalRule r y1 y2)).flatten

/-! errors.py -/

/-- The calendar data NotSessionError reads: its name and its first and last
sessions (timestamps embedded as integers). -/
structure Calendar where
  cname : String
  first_session : Int
  last_session : Int

/-- NotSessionError: the fields stored by its constructor. -/
structure NotSessionError where
  calendar : Calendar
  ts : Int
  param_name : Option String

/-- The first step of NotSessionError.__str__: the message head names the
offending parameter when one was supplied, else just quotes the timestamp. -/
def NotSessionError.msgHead (e : NotSessionError) : String :=
  match e.param_name with
  | some p =>
      "Parameter `" ++ p ++
      "` takes a session label although received input that parsed to '" ++
      toString e.ts ++ "' which"
  | none => "'" ++ toString e.ts ++ "'"

/-- The second step of NotSessionError.__str__: the suffix appended to the
head, chosen by comparing ts with the calendar's first and last sessions. -/
def NotSessionError.caseSuffix (e : NotSessionError) : String :=
  if e.ts < e.calendar.first_session then
    " is earlier than the first session of calendar '" ++
      e.calendar.cname ++ "' ('" ++ toString e.calendar.first_session ++ "')."
  else if e.ts > e.calendar.last_session then
    " is later than the last session of calendar '" ++
      e.calendar.cname ++ "' ('" ++ toString e.calendar.last_session ++ "')."
  else
    " is not a session of calendar '" ++ e.calendar.cname ++ "'."

/-- NotSessionError.__str__: the head followed by the case suffix. -/
def NotSessionError.toStr (e : NotSessionError) : String :=
  e.msgHead ++ e.caseSuffix

/-- CalendarError: the subclass-specific template rendering (`msg.format` over
the stored kwargs, abstracted as a function), the kwargs stored by __init__,
and the lazyval cache slot for the message property. -/
structure CalendarError where
  render : List (String × String) → String
  kwargs : List (String × String)
  message_cache : Option String

/-- CalendarError.__init__: stores kwargs only; no message is computed. -/
def CalendarError.init (render : List (String × String) → String)
    (kwargs : List (String × String)) : CalendarError :=
  ⟨render, kwargs, none⟩

/-- Modelled from the spec: lazyval (exchange_calendars.utils.memoize, not
under src) computes the decorated property on first access and caches the
value on the instance; per spec §9 the message is rendered only on demand and
never mutated after first render.  Access returns the message and the
(possibly updated) error value. -/
def CalendarError.message (e : CalendarError) : String × CalendarError :=
  match e.message_cache with
  | some m => (m, e)
  | none =>
    let m := e.render e.kwargs
    (m, { e with message_cache := some m })

/-! us_futures_calendar.py -/

/-- FUTURES_OPEN_TIME_OFFSET = 12.5 (hours). -/
def FUTURES_OPEN_TIME_OFFSET : Rat := 12.5

/-- FUTURES_CLOSE_TIME_OFFSET = -1 (hours). -/
def FUTURES_CLOSE_TIME_OFFSET : Rat := -1

/-- pandas Timedelta(hours=h), in minutes. -/
def timedeltaOfHours (h : Rat) : Rat := h * 60

/-- QuantopianUSFuturesCalendar.execution_time_from_open: shift by
FUTURES_OPEN_TIME_OFFSET hours (timestamps as minute counts). -/
def execution_time_from_open (open_dates : Rat) : Rat :=
  open_dates + timedeltaOfHours FUTURES_OPEN_TIME_OFFSET

/-- QuantopianUSFuturesCalendar.execution_time_from_close: shift by
FUTURES_CLOSE_TIME_OFFSET hours. -/
def execution_time_from_close (close_dates : Rat) : Rat :=
  close_dates + timedeltaOfHours FUTURES_CLOSE_TIME_OFFSET

/-- A calendar's session-time configuration: open and close times of day (in
minutes after local midnight), the session day-offset applied to the open, and
the zone-rule provider (minutes east of UTC on a given local day; spec §6
treats it as a trusted external function). -/
structure SessionConfig where
  open_time : Int
  close_time : Int
  open_offset : Int
  tz_offset : Int → Int

/-- QuantopianUSFuturesCalendar's configuration: open_times 18:01, close_times
18:00, open_offset -1, parameterized by the America/New_York offset rules. -/
def usFuturesConfig (tz : Int → Int) : SessionConfig :=
  ⟨18 * 60 + 1, 18 * 60, -1, tz⟩

/-- Modelled from the spec: a session's open instant (§4.3 step 4) converts
the local open time-of-day on the calendar day shifted by the session
day-offset into an absolute instant. -/
def openInstant (cfg : SessionConfig) (d : Int) : Int :=
  (d + cfg.open_offset) * 1440 + cfg.open_time -
    cfg.tz_offset (d + cfg.open_offset)

/-- Modelled from the spec: a session's close instant (§4.3 step 4) converts
the local close time-of-day on the trading date into an absolute instant. -/
def closeInstant (cfg : SessionConfig) (d : Int) : Int :=
  d * 1440 + cfg.close_time - cfg.tz_offset d

/-- A session of a built Session Index (§3). -/
structure Session where
  date : Int
  open_instant : Int
  close_instant : Int
  deriving DecidableEq

/-- Modelled from the spec: the Schedule Builder (§4.3, the engine file is not
under src): enumerate the range, drop weekly non-trading dates and holiday-set
dates, compute each remaining date's open/close instants, and assert the
Session Index invariant open_instant < close_instant, failing construction
(none) when it is violated. -/
def buildSessionIndex (cfg : SessionConfig) (nontrading : Int → Bool)
    (holidays : List Int) (start stop : Int) : Option (List Session) :=
  let dates := (List.range (stop + 1 - start).toNat).map
    (fun i => start + (i : Int))
  let trading := dates.filter
    (fun d => !nontrading d && !(decide (d ∈ holidays)))
  let sessions := trading.map
    (fun d => Session.mk d (openInstant cfg d) (closeInstant cfg d))
  if sessions.all (fun s => decide (s.open_instant < s.close_instant)) then
    some sessions
  else none

/-! Theorems -/

/-- C4: the weekend-makeup transform is the identity on dates before its 2014
start year; from 2014 on it moves a Sunday date forward one day, a Saturday
date back one day, and leaves any weekday date unchanged. -/
theorem weekend_makeup_cases (d : Int) :
    (year d < 2014 → weekend_makeup d = d) ∧
    (2014 ≤ year d →
      (weekday d = SUNDAY → weekend_makeup d = d + 1) ∧
      (weekday d = SATURDAY → weekend_makeup d = d - 1) ∧
      (weekday d ≠ SATURDAY → weekday d ≠ SUNDAY → weekend_makeup d = d)) := by
  unfold weekend_makeup
  constructor
  · intro h
    rw [if_pos h]
  · intro h
    rw [if_neg (by omega)]
    refine ⟨fun hs => by rw [if_pos hs], fun hs => ?_, fun h1 h2 => ?_⟩
    · rw [if_neg (by rw [hs]; unfold SATURDAY SUNDAY; omega), if_pos hs]
    · rw [if_neg h2, if_neg h1]

/-- Witness for C4: 2023-01-01 (a Sunday, year 2014 or later) moves forward
one day; 2010-01-02 (a Saturday, before 2014) is unchanged. -/
theorem weekend_makeup_cases_witness :
    weekend_makeup (mkDate 2023 1 1) = mkDate 2023 1 1 + 1 ∧
    weekend_makeup (mkDate 2010 1 2) = mkDate 2010 1 2 :=
  ⟨((weekend_makeup_cases (mkDate 2023 1 1)).2 (by decide)).1 (by decide),
   (weekend_makeup_cases (mkDate 2010 1 2)).1 (by decide)⟩

/-- C5: bridge_mon produces the date one day earlier exactly when that date is
a Monday accepted by the year-range checker, and None otherwise; bridge_fri
symmetrically produces the date one day later exactly when that date is a
Friday accepted by the checker, and None otherwise. -/
theorem bridge_mon_fri_spec (d : Int) (checker : Int → Bool) :
    (bridge_mon d checker = some (d - 1) ↔
      weekday (d - 1) = MONDAY ∧ checker (d - 1) = true) ∧
    (bridge_mon d checker = none ↔
      ¬(weekday (d - 1) = MONDAY ∧ checker (d - 1) = true)) ∧
    (∀ x, bridge_mon d checker = some x → x = d - 1) ∧
    (bridge_fri d checker = some (d + 1) ↔
      weekday (d + 1) = FRIDAY ∧ checker (d + 1) = true) ∧
    (bridge_fri d checker = none ↔
      ¬(weekday (d + 1) = FRIDAY ∧ checker (d + 1) = true)) ∧
    (∀ x, bridge_fri d checker = some x → x = d + 1) := by
  simp only [bridge_mon, bridge_fri]
  refine ⟨?_, ?_, ?_, ?_, ?_, ?_⟩ <;> split_ifs <;> simp_all

/-- Witness for C5: 2019-01-01's bridge_mon fires, since 2018-12-31 is a
Monday in a year accepted by check_after_2013. -/
theorem bridge_mon_fri_spec_witness :
    bridge_mon (mkDate 2019 1 1) check_after_2013 =
      some (mkDate 2019 1 1 - 1) :=
  ((bridge_mon_fri_spec (mkDate 2019 1 1) check_after_2013).1).mpr (by decide)

/-- C9: the US futures execution-time transforms shift a timestamp by +12
hours 30 minutes (750 minutes) from the open and by -1 hour (60 minutes) from
the close. -/
theorem execution_time_offsets (t : Rat) :
    execution_time_from_open t = t + 750 ∧
    execution_time_from_close t = t - 60 := by
  unfold execution_time_from_open execution_time_from_close timedeltaOfHours
    FUTURES_OPEN_TIME_OFFSET FUTURES_CLOSE_TIME_OFFSET
  constructor <;> (norm_num; try ring)

/-- C10: on a date with year > 2012, month 4 and day 4, the tomb-sweeping
workday-extra stage contributes exactly one date - April 5 of that year when
April 4 is a Thursday, else April 3 - and any other date contributes nothing;
overall it yields exactly one date per qualifying input. -/
theorem tomb_sweeping_extra_spec (d : Int) (rest : List Int) :
    (year d > 2012 ∧ month d = 4 ∧ dayOfMonth d = 4 →
      evalute_tomb_sweeping_workday_extra (d :: rest) =
        (if weekday (mkDate (year d) 4 4) = THURSDAY then mkDate (year d) 4 5
         else mkDate (year d) 4 3) ::
          evalute_tomb_sweeping_workday_extra rest) ∧
    (¬(year d > 2012 ∧ month d = 4 ∧ dayOfMonth d = 4) →
      evalute_tomb_sweeping_workday_extra (d :: rest) =
        evalute_tomb_sweeping_workday_extra rest) ∧
    (∀ dts : List Int, (evalute_tomb_sweeping_workday_extra dts).length =
      (dts.filter (fun x =>
        decide (year x > 2012 ∧ month x = 4 ∧ dayOfMonth x = 4))).length) := by
  refine ⟨?_, ?_, ?_⟩
  · intro h
    simp only [evalute_tomb_sweeping_workday_extra]
    rw [if_pos h]
  · intro h
    simp only [evalute_tomb_sweeping_workday_extra]
    rw [if_neg h]
  · intro dts
    induction dts with
    | nil => rfl
    | cons x xs ih =>
      by_cases hx : year x > 2012 ∧ month x = 4 ∧ dayOfMonth x = 4
      · unfold evalute_tomb_sweeping_workday_extra
        rw [if_pos hx, List.filter_cons_of_pos (by simpa using hx)]
        simpa using ih
      · unfold evalute_tomb_sweeping_workday_extra
        rw [if_neg hx, List.filter_cons_of_neg (by simpa using hx)]
        exact ih

/-- Witness for C10: 2024-04-04 qualifies and April 4 2024 is a Thursday, so
the stage yields April 5 2024. -/
theorem tomb_sweeping_extra_spec_witness :
    evalute_tomb_sweeping_workday_extra [mkDate 2024 4 4] =
      [mkDate 2024 4 5] :=
  ((tomb_sweeping_extra_spec (mkDate 2024 4 4) []).1 (by decide)).trans
    (by decide)

/-- C8: a freshly constructed CalendarError has no message computed; the
message is rendered from the stored fields on first access, the access caches
exactly the returned string, and every subsequent access returns the same
string without further change to the error value. -/
theorem calendar_error_lazy_message
    (render : List (String × String) → String)
    (kwargs : List (String × String)) (e : CalendarError) :
    (CalendarError.init render kwargs).message_cache = none ∧
    (e.message_cache = none →
      (CalendarError.message e).1 = e.render e.kwargs) ∧
    (CalendarError.message e).2.message_cache =
      some (CalendarError.message e).1 ∧
    CalendarError.message (CalendarError.message e).2 =
      ((CalendarError.message e).1, (CalendarError.message e).2) := by
  obtain ⟨r, k, c⟩ := e
  cases c <;> simp [CalendarError.message, CalendarError.init]

/-- Witness for C8: a concrete error rendering to a constant string has an
empty cache at construction and returns that string on first access. -/
theorem calendar_error_lazy_message_witness :
    (CalendarError.init (fun _ => ("m" : String)) []).message_cache = none ∧
    (CalendarError.message (CalendarError.init (fun _ => ("m" : String)) [])).1 =
      ("m" : String) :=
  ⟨(calendar_error_lazy_message (fun _ => ("m" : String)) []
      (CalendarError.init (fun _ => ("m" : String)) [])).1,
   (calendar_error_lazy_message (fun _ => ("m" : String)) []
      (CalendarError.init (fun _ => ("m" : String)) [])).2.1 rfl⟩

/-- C1: the rendered NotSessionError message falls into exactly one of three
cases, chosen by where ts lies relative to the calendar's first and last
sessions - earlier than the first session, later than the last session, or
simply not a session - and when a parameter name is supplied the message names
that parameter. -/
theorem not_session_error_message_cases (e : NotSessionError) :
    ((e.ts < e.calendar.first_session ∧
        e.toStr = e.msgHead ++
          (" is earlier than the first session of calendar '" ++
           e.calendar.cname ++ "' ('" ++
           toString e.calendar.first_session ++ "').")) ∨
     (e.calendar.first_session ≤ e.ts ∧ e.calendar.last_session < e.ts ∧
        e.toStr = e.msgHead ++
          (" is later than the last session of calendar '" ++
           e.calendar.cname ++ "' ('" ++
           toString e.calendar.last_session ++ "').")) ∨
     (e.calendar.first_session ≤ e.ts ∧ e.ts ≤ e.calendar.last_session ∧
        e.toStr = e.msgHead ++
          (" is not a session of calendar '" ++
           e.calendar.cname ++ "'."))) ∧
    (∀ p, e.param_name = some p →
      ∃ rest, e.toStr =
        ("Parameter `" ++ p ++
         "` takes a session label although received input that parsed to '" ++
         toString e.ts ++ "' which") ++ rest) := by
  constructor
  · unfold NotSessionError.toStr NotSessionError.caseSuffix
    by_cases h1 : e.ts < e.calendar.first_session
    · exact Or.inl ⟨h1, by rw [if_pos h1]⟩
    · by_cases h2 : e.ts > e.calendar.last_session
      · exact Or.inr (Or.inl ⟨by omega, h2, by rw [if_neg h1, if_pos h2]⟩)
      · exact Or.inr (Or.inr ⟨by omega, by omega,
          by rw [if_neg h1, if_neg h2]⟩)
  · intro p hp
    refine ⟨e.caseSuffix, ?_⟩
    unfold NotSessionError.toStr NotSessionError.msgHead
    rw [hp]

/-- Witness for C1: a concrete error with parameter name "start" and a
timestamp below the calendar's first session; the message opens by naming the
parameter. -/
theorem not_session_error_message_cases_witness :
    ∃ rest,
      (NotSessionError.mk (Calendar.mk ("CAL") 10 20) 5 (some ("start"))).toStr =
        ("Parameter `" ++ ("start" : String) ++
         "` takes a session label although received input that parsed to '" ++
         toString (5 : Int) ++ "' which") ++ rest :=
  (not_session_error_message_cases
    (NotSessionError.mk (Calendar.mk ("CAL") 10 20) 5 (some ("start")))).2
    ("start") rfl

/-- C2: every session of a successfully built Session Index satisfies
open_instant < close_instant; in particular under the US futures
configuration (open 18:01 local on the day before the trading date, close
18:00 local on the trading date) the open instant precedes the close instant
on every date, for any America/New_York offset function (UTC-5h or UTC-4h). -/
theorem session_open_before_close
    (cfg : SessionConfig) (nontrading : Int → Bool) (holidays : List Int)
    (start stop : Int) (ss : List Session) (tz : Int → Int) :
    (buildSessionIndex cfg nontrading holidays start stop = some ss →
      ∀ s ∈ ss, s.open_instant < s.close_instant) ∧
    ((∀ d, tz d = -300 ∨ tz d = -240) →
      ∀ d, openInstant (usFuturesConfig tz) d <
        closeInstant (usFuturesConfig tz) d) := by
  constructor
  · intro h s hs
    simp only [buildSessionIndex] at h
    split at h
    case isTrue hall =>
      obtain rfl := Option.some.inj h
      exact of_decide_eq_true (List.all_eq_true.mp hall s hs)
    case isFalse => exact absurd h (by simp)
  · intro htz d
    simp only [openInstant, closeInstant, usFuturesConfig]
    rcases htz (d + -1) with h1 | h1 <;> rcases htz d with h2 | h2 <;> omega

/-- Witness for C2: a concrete two-day build under the US futures
configuration succeeds, and its first session's open precedes its close. -/
theorem session_open_before_close_witness :
    (Session.mk 0 (-59) 1380).open_instant <
      (Session.mk 0 (-59) 1380).close_instant :=
  (session_open_before_close (usFuturesConfig (fun _ => -300))
      (fun d => decide (weekday d = SATURDAY ∨ weekday d = SUNDAY)) [] 0 1
      [Session.mk 0 (-59) 1380, Session.mk 1 1381 2820]
      (fun _ => -300)).1
    (by decide) (Session.mk 0 (-59) 1380) (by decide)

/-- A year within the queried range is among the enumerated anchor years. -/
theorem mem_yearsInRange {y1 y2 y : Int} (h1 : y1 ≤ y) (h2 : y ≤ y2) :
    y ∈ yearsInRange y1 y2 := by
  unfold yearsInRange
  rw [List.mem_map]
  refine ⟨(y - y1).toNat, ?_, by omega⟩
  rw [List.mem_range]
  omega

/-- A date the observance produces for an in-range anchor year that meets the
rule's start bound (if any) belongs to the rule's evaluation. -/
theorem mem_evalRule_of_observance {r : HolidayRule}
    {y1 y2 y d : Int} (h1 : y1 ≤ y) (h2 : y ≤ y2)
    (hobs : r.observance (mkDate y r.hMonth r.hDay) = some d)
    (hstart : ∀ s, r.start_year = some s → s ≤ y) :
    d ∈ evalRule r y1 y2 := by
  unfold evalRule
  rw [List.mem_filterMap]
  refine ⟨y, ?_, hobs⟩
  rw [List.mem_filter]
  refine ⟨mem_yearsInRange h1 h2, ?_⟩
  cases hc : r.start_year with
  | none => rfl
  | some s => exact decide_eq_true (hstart s hc)

/-- A date produced by any configured rule belongs to the unioned holiday
set. -/
theorem mem_holidaySet {r : HolidayRule} (hr : r ∈ xtaiRegularHolidays)
    {y1 y2 d : Int} (hd : d ∈ evalRule r y1 y2) :
    d ∈ xtaiRegularHolidaySet y1 y2 := by
  unfold xtaiRegularHolidaySet
  rw [List.mem_flatten]
  exact ⟨evalRule r y1 y2, List.mem_map_of_mem _ hr, hd⟩

/-- C6: bridging adds holidays without replacing the observed base holiday:
for every bridged family of the calendar (New Year's Day, Peace Memorial Day,
Women and Children's Day, National Day) and every anchor year in range meeting
the family's start bound, whenever the family's Extra Monday or Extra Friday
rule fires on the anchor, the unioned holiday set contains both the base
rule's observed date and the bridging date, since the bridging rules sit
alongside the base rule in the calendar's rule list. -/
theorem bridged_holidays_union (y1 y2 y b : Int) (base extra : HolidayRule) :
    ((base = NewYearsDay ∧
        (extra = NewYearsDayExtraMon ∨ extra = NewYearsDayExtraFri)) ∨
     (base = PeaceMemorialDay ∧
        (extra = PeaceMemorialDayExtraMon ∨
         extra = PeaceMemorialDayExtraFri)) ∨
     (base = WomenAndChildrensDay ∧
        (extra = WomenAndChildrensDayExtraMon ∨
         extra = WomenAndChildrensDayExtraFri)) ∨
     (base = NationalDay ∧
        (extra = NationalDayExtraMon ∨ extra = NationalDayExtraFri))) →
    y1 ≤ y → y ≤ y2 →
    (∀ s, base.start_year = some s → s ≤ y) →
    ∀ o, base.observance (mkDate y base.hMonth base.hDay) = some o →
      extra.observance (mkDate y extra.hMonth extra.hDay) = some b →
      o ∈ xtaiRegularHolidaySet y1 y2 ∧ b ∈ xtaiRegularHolidaySet y1 y2 := by
  intro hfam h1 h2 hstart o hbase hextra
  rcases hfam with ⟨hb, he⟩ | ⟨hb, he⟩ | ⟨hb, he⟩ | ⟨hb, he⟩ <;> subst hb <;>
    rcases he with he | he <;> subst he <;>
    exact ⟨mem_holidaySet (by simp [xtaiRegularHolidays])
        (mem_evalRule_of_observance h1 h2 hbase hstart),
      mem_holidaySet (by simp [xtaiRegularHolidays])
        (mem_evalRule_of_observance h1 h2 hextra hstart)⟩

/-- Witness for C6: in 2017, Feb 28 is a Tuesday, so the Peace Memorial Day
Extra Monday rule fires on Monday 2017-02-27, and both the observed holiday
and the bridging Monday are in the 2017 holiday set. -/
theorem bridged_holidays_union_witness :
    weekend_makeup (mkDate 2017 2 28) ∈ xtaiRegularHolidaySet 2017 2017 ∧
    mkDate 2017 2 27 ∈ xtaiRegularHolidaySet 2017 2017 :=
  bridged_holidays_union 2017 2017 2017 (mkDate 2017 2 27)
    PeaceMemorialDay PeaceMemorialDayExtraMon
    (Or.inr (Or.inl ⟨rfl, Or.inl rfl⟩))
    (by decide) (by decide)
    (fun s hs => by simp [PeaceMemorialDay] at hs)
    (weekend_makeup (mkDate 2017 2 28)) rfl
    (by decide)

/-- C7: 2021-04-02 is in the XTAI ad-hoc holiday set (whatever the external
lunisolar anchor lists are), and no session of a built XTAI Session Index
falls on 2021-04-02, regardless of the weekly non-trading pattern. -/
theorem adhoc_excludes_2021_04_02 (cny qingming db ma regular : List Int)
    (cfg : SessionConfig) (nontrading : Int → Bool) (start stop : Int)
    (ss : List Session) :
    mkDate 2021 4 2 ∈ adhoc_holidays cny qingming db ma ∧
    (buildSessionIndex cfg nontrading
        (regular ++ adhoc_holidays cny qingming db ma) start stop = some ss →
      ∀ s ∈ ss, s.date ≠ mkDate 2021 4 2) := by
  have hmem : mkDate 2021 4 2 ∈ adhoc_holidays cny qingming db ma := by
    unfold adhoc_holidays
    repeat apply List.mem_append_left
    decide
  refine ⟨hmem, ?_⟩
  intro h s hs heq
  simp only [buildSessionIndex] at h
  split at h
  case isFalse => exact absurd h (by simp)
  case isTrue hall =>
    obtain rfl := Option.some.inj h
    rw [List.mem_map] at hs
    obtain ⟨d, hd, rfl⟩ := hs
    rw [List.mem_filter] at hd
    have hpred := hd.2
    simp only [Bool.and_eq_true, Bool.not_eq_true', decide_eq_false_iff_not]
      at hpred
    have heqd : d = mkDate 2021 4 2 := heq
    exact hpred.2 (List.mem_append_right _ (heqd ▸ hmem))

/-- Witness for C7: 2021-04-02 is in the ad-hoc set even with all four
external lunisolar anchor lists empty. -/
theorem adhoc_excludes_2021_04_02_witness :
    mkDate 2021 4 2 ∈ adhoc_holidays [] [] [] [] :=
  (adhoc_excludes_2021_04_02 [] [] [] [] []
    (usFuturesConfig (fun _ => 0)) (fun _ => false) 0 0 []).1

/-- nearest_workday moves a date by at most one day. -/
theorem nearest_workday_near (n : Int) :
    n - 1 ≤ nearest_workday n ∧ nearest_workday n ≤ n + 1 := by
  unfold nearest_workday
  split_ifs <;> omega

/-- next_monday never outputs a Saturday or a Sunday. -/
theorem next_monday_not_weekend (a : Int) :
    weekday (next_monday a) ≠ SATURDAY ∧ weekday (next_monday a) ≠ SUNDAY := by
  unfold next_monday weekday SATURDAY SUNDAY
  split_ifs <;> constructor <;> omega

/-- previous_friday never outputs a Saturday or a Sunday. -/
theorem previous_friday_not_weekend (a : Int) :
    weekday (previous_friday a) ≠ SATURDAY ∧
    weekday (previous_friday a) ≠ SUNDAY := by
  unfold previous_friday weekday SATURDAY SUNDAY
  split_ifs <;> constructor <;> omega

/-- Counterexample to C3: no fixed day delta makes the second
Chinese-New-Year's-Eve stage a nearest-workday adjustment of the shifted
anchor.  A Monday anchor (day 4) forces delta = -4 while a Wednesday anchor
(day 6) forbids it. -/
theorem cny_stage_not_fixed_delta_nearest_workday :
    ¬ ∃ delta : Int, ∀ a : Int,
      chinese_new_years_eve_2 [a] = [nearest_workday (a + delta)] := by
  rintro ⟨delta, h⟩
  have h4 := h 4
  have h6 := h 6
  have e4 : chinese_new_years_eve_2 [4] = [0] := by decide
  have e6 : chinese_new_years_eve_2 [6] = [4] := by decide
  rw [e4] at h4
  rw [e6] at h6
  have h4' : (0 : Int) = nearest_workday (4 + delta) := by simpa using h4
  have h6' : (4 : Int) = nearest_workday (6 + delta) := by simpa using h6
  have hb := nearest_workday_near (4 + delta)
  have hd1 : -5 ≤ delta := by omega
  have hd2 : delta ≤ -3 := by omega
  interval_cases delta
  · exact absurd h4' (by decide)
  · exact absurd h6' (by decide)
  · exact absurd h4' (by decide)

/-- C3 as amended: each Chinese-New-Year cluster stage produces exactly one
date per anchor, obtained from the previous stage's date shifted by one day
and then adjusted directionally - next-Monday for the main day and the
following days, previous-Friday for the eve days (not nearest-workday, and
not at a fixed delta from the anchor) - and no produced date falls on a
Saturday or a Sunday. -/
theorem cny_cluster_stages (anchors : List Int) :
    chinese_new_year anchors = anchors.map next_monday ∧
    chinese_new_years_eve anchors =
      anchors.map (fun a => previous_friday (next_monday a - 1)) ∧
    chinese_new_years_eve_2 anchors =
      anchors.map (fun a =>
        previous_friday (previous_friday (next_monday a - 1) - 1)) ∧
    chinese_new_year_2 anchors =
      anchors.map (fun a => next_monday (next_monday a + 1)) ∧
    chinese_new_year_3 anchors =
      anchors.map (fun a =>
        next_monday (next_monday (next_monday a + 1) + 1)) ∧
    (∀ d, (d ∈ chinese_new_year anchors ∨
        d ∈ chinese_new_years_eve anchors ∨
        d ∈ chinese_new_years_eve_2 anchors ∨
        d ∈ chinese_new_year_2 anchors ∨
        d ∈ chinese_new_year_3 anchors) →
      weekday d ≠ SATURDAY ∧ weekday d ≠ SUNDAY) := by
  refine ⟨rfl, ?_, ?_, ?_, ?_, ?_⟩
  · simp [chinese_new_years_eve, chinese_new_year, chinese_new_year_offset,
      before_chinese_new_year_offset, List.map_map, Function.comp]
  · simp [chinese_new_years_eve_2, chinese_new_years_eve, chinese_new_year,
      chinese_new_year_offset, before_chinese_new_year_offset, List.map_map,
      Function.comp]
  · simp [chinese_new_year_2, chinese_new_year, chinese_new_year_offset,
      List.map_map, Function.comp]
  · simp [chinese_new_year_3, chinese_new_year_2, chinese_new_year,
      chinese_new_year_offset, List.map_map, Function.comp]
  · intro d hd
    rcases hd with h | h | h | h | h
    · simp only [chinese_new_year, chinese_new_year_offset,
        List.mem_map] at h
      obtain ⟨a, _, rfl⟩ := h
      exact next_monday_not_weekend a
    · simp only [chinese_new_years_eve, chinese_new_year,
        chinese_new_year_offset, before_chinese_new_year_offset,
        List.mem_map] at h
      obtain ⟨a, _, rfl⟩ := h
      exact previous_friday_not_weekend _
    · simp only [chinese_new_years_eve_2, chinese_new_years_eve,
        chinese_new_year, chinese_new_year_offset,
        before_chinese_new_year_offset, List.mem_map] at h
      obtain ⟨a, _, rfl⟩ := h
      exact previous_friday_not_weekend _
    · simp only [chinese_new_year_2, chinese_new_year,
        chinese_new_year_offset, List.mem_map] at h
      obtain ⟨a, _, rfl⟩ := h
      exact next_monday_not_weekend _
    · simp only [chinese_new_year_3, chinese_new_year_2, chinese_new_year,
        chinese_new_year_offset, List.mem_map] at h
      obtain ⟨a, _, rfl⟩ := h
      exact next_monday_not_weekend _

/-- Witness for the amended C3: on the singleton anchor list [day 4, a
Monday], the main stage is the next-Monday adjustment of the anchor, and its
produced date is not on a weekend. -/
theorem cny_cluster_stages_witness :
    chinese_new_year [4] = [4].map next_monday ∧
    (weekday (next_monday 4) ≠ SATURDAY ∧
     weekday (next_monday 4) ≠ SUNDAY) :=
  ⟨(cny_cluster_stages [4]).1,
   (cny_cluster_stages [4]).2.2.2.2.2 (next_monday 4) (Or.inl (by decide))⟩

end ExchangeCalendars
